import Mathlib

/-!
Verification of the scenario execution and validation engine of
npm-package-tester, shallowly embedded from the TypeScript sources
(`src/application/DockerManager.ts` and the `ScenarioRunner` module).

Conventions of the embedding:
* JavaScript strings are Lean `String`s; raw byte chunks on the docker
  exec stream are `List Char` (one `Char` per byte, as produced by
  `Buffer.toString` on single-byte data).
* `undefined` / optional fields are `Option`; `x ?? d` is `Option.getD`.
* A thrown `Error` is modelled by its `.message` string, so fallible
  docker operations return `Except String α`.
* Every call the `ScenarioRunner` makes to the `DockerManager` is
  recorded, in call order, in a trace of `DockerOp` values, so that
  claims about which operations run (and in which order) are statable.
-/

namespace NPT

/-- A stdout/stderr/file matcher: the TypeScript code discriminates
`string | RegExp` by `typeof`; a `RegExp` is opaque to the engine except
for its `test` method and its printed source, so it is embedded as a
predicate together with its display text. -/
inductive Pattern where
  | str (s : String)
  | regex (tst : String → Bool) (src : String)

/-- Structure `TestFile` from `domain/models/types`. -/
structure TestFile where
  path : String
  content : String
deriving DecidableEq

/-- Structure `TestSetup` from `domain/models/types`. -/
structure TestSetup where
  files : Option (List TestFile)
  directories : Option (List String)
  dependencies : Option (List String)
  initNpm : Option Bool

/-- Structure `FileContentValidation` from `domain/models/types`. -/
structure FileContentValidation where
  path : String
  contains : Option (List Pattern)
  notContains : Option (List Pattern)
  equals : Option String

/-- Structure `TestValidation` from `domain/models/types`. -/
structure TestValidation where
  exitCode : Option Int
  stdout : Option (List Pattern)
  stderr : Option (List Pattern)
  filesExist : Option (List String)
  filesNotExist : Option (List String)
  fileContents : Option (List FileContentValidation)

/-- Structure `TestScenario` from `domain/models/types` (the fields the engine
reads; `description` is never touched by the runner). -/
structure TestScenario where
  name : String
  setup : Option TestSetup
  command : String
  args : Option (List String)
  validate : TestValidation

/-- The `{exitCode, stdout, stderr}` record returned by
`DockerManager.executeCommand`. -/
structure ExecResult where
  exitCode : Int
  stdout : String
  stderr : String
deriving DecidableEq

/-- The `{passed, error?}` record returned by `validateScenario`. -/
structure ValidationResult where
  passed : Bool
  error : Option String
deriving DecidableEq

/-- Structure `CommandTestResult` restricted to the fields `runScenario` computes
from the run itself.  `command`, `nodeVersion` and the wall-clock
`duration` are opaque pass-through/timing data and are not modelled. -/
structure CommandTestResult where
  passed : Bool
  exitCode : Int
  stdout : String
  stderr : String
  error : Option String
  hasHelpOutput : Bool
  hasVersionOutput : Bool
deriving DecidableEq

/-! ### String helpers (JavaScript primitives used by the engine) -/

/-- Whether `l` starts with `sub`. -/
def startsWithChars : List Char → List Char → Bool
  | [], _ => true
  | _ :: _, [] => false
  | a :: as, b :: bs => a = b && startsWithChars as bs

/-- Whether `sub` occurs contiguously inside `l`. -/
def containsChars : List Char → List Char → Bool
  | l@(_ :: rest), sub => startsWithChars sub l || containsChars rest sub
  | [], sub => sub.isEmpty

/-- JavaScript `s.includes(sub)`. -/
def strIncludes (s sub : String) : Bool :=
  containsChars s.data sub.data

/-- JavaScript whitespace test for the characters `trim` strips
(space, tab, newline, carriage return). -/
def isWsChar (c : Char) : Bool :=
  c = ' ' || c = '\t' || c = '\n' || c = '\r'

/-- JavaScript `s.trim()`: strip leading and trailing whitespace. -/
def strTrim (s : String) : String :=
  String.mk (((s.data.dropWhile isWsChar).reverse.dropWhile isWsChar).reverse)

/-- JavaScript `parts.join(sep)`. -/
def joinSep (sep : String) : List String → String
  | [] => ""
  | [x] => x
  | x :: y :: xs => x ++ sep ++ joinSep sep (y :: xs)

/-- JavaScript `filePath.substring(0, filePath.lastIndexOf('/'))`:
everything strictly before the last `'/'`, or `""` when there is none
(`substring(0, -1)` clamps to the empty string). -/
def beforeLastSlash (s : String) : String :=
  match (s.data.reverse.dropWhile (fun c => c ≠ '/')) with
  | [] => ""
  | _ :: rest => String.mk rest.reverse

/-! ### `DockerManager.executeCommand` output demultiplexing -/

/-- One `data` event of the exec stream: the handler body.  A chunk of
more than 8 bytes has its tag byte read at offset 0 and its payload
(`chunk.slice(8)`, decoded to text) appended to the buffer selected by
the tag (1 = stdout, 2 = stderr); any other chunk is ignored. -/
def demuxStep (acc : String × String) : List Char → String × String
  | [] => acc
  | b :: rest =>
    if 8 < (b :: rest).length then
      let data := String.mk ((b :: rest).drop 8)
      if b.toNat = 1 then (acc.1 ++ data, acc.2)
      else if b.toNat = 2 then (acc.1, acc.2 ++ data)
      else acc
    else acc

/-- Accumulation of all `data` events, in arrival order, starting from
empty buffers (`let stdout = ''; let stderr = ''`). -/
def demux (chunks : List (List Char)) : String × String :=
  chunks.foldl demuxStep ("", "")

/-- Spec-side description of one reconstructed channel: the
concatenation, in arrival order, of the bytes-8-onward payload of every
chunk whose tag byte (byte 0) equals `tag`.  A chunk of at most 8 bytes
contributes an empty payload. -/
def channelConcat (tag : Nat) : List (List Char) → String
  | [] => ""
  | c :: rest =>
    (if c.head?.map Char.toNat = some tag
     then String.mk (c.drop 8) else "") ++ channelConcat tag rest

/-- The record `executeCommand` returns, as a function of the received
chunk sequence and the `ExitCode` field of the post-exec inspection
(`null`/missing = `none`): demultiplex, trim both buffers, default the
exit code to 0. -/
def executeCommandResult (chunks : List (List Char)) (inspectExitCode : Option Int) :
    ExecResult :=
  let (out, err) := demux chunks
  { exitCode := inspectExitCode.getD 0
    stdout := strTrim out
    stderr := strTrim err }

/-! ### The `DockerManager` interface seen by `ScenarioRunner`

`ScenarioRunner` drives the container exclusively through five
`DockerManager` methods.  Each call is recorded as a `DockerOp`; the
container's behaviour is an oracle `DockerOps` answering each call
(`Except.error msg` models the method throwing an `Error` with that
message). -/

/-- One call made to the `DockerManager` (its arguments identify it). -/
inductive DockerOp where
  | createDirectory (containerId path : String)
  | createFile (containerId path content : String)
  | executeCommand (containerId : String) (cmd : List String)
  | fileExists (containerId path : String)
  | readFile (containerId path : String)
deriving DecidableEq

/-- The container oracle: what each `DockerManager` call returns (or
throws) during one scenario run. -/
structure DockerOps where
  createDirectory : String → String → Except String Unit
  createFile : String → String → String → Except String Unit
  executeCommand : String → List String → Except String ExecResult
  fileExists : String → String → Except String Bool
  readFile : String → String → Except String String

/-! ### `validateScenario` (the Scenario Validator) -/

/-- The exit-code check of `validateScenario`: expected code is
`validation.exitCode ?? 0`; a mismatch contributes one message. -/
def exitCodeErrors (v : TestValidation) (result : ExecResult) : List String :=
  let expected := v.exitCode.getD 0
  if result.exitCode ≠ expected then
    ["Expected exit code " ++ toString expected ++ ", got " ++ toString result.exitCode]
  else []

/-- One stdout/stderr matcher check: a literal requires substring
containment, a regex requires `test` to succeed; each failure yields the
message the code pushes (with `label` = `"Stdout"` or `"Stderr"`). -/
def patternError (label : String) (s : String) (p : Pattern) : Option String :=
  match p with
  | .str t =>
    if strIncludes s t then none
    else some (label ++ " missing expected text: \"" ++ t ++ "\"")
  | .regex tst src =>
    if tst s then none
    else some (label ++ " doesn't match pattern: " ++ src)

/-- The stdout (resp. stderr) block of `validateScenario`: when the
matcher list is present, every matcher is checked against the stream,
each failure contributing one message in matcher order. -/
def streamErrors (label : String) (pats : Option (List Pattern)) (s : String) :
    List String :=
  match pats with
  | none => []
  | some ps => ps.filterMap (patternError label s)

/-- The `filesExist` loop: for each relative path, ask the container
whether `/test/<path>` exists; absence contributes one message.  A
`fileExists` call that throws is not caught inside `validateScenario`,
so it aborts with the error; the trace records the calls made. -/
def filesExistErrors (ops : DockerOps) (cid : String) :
    List String → Except String (List String) × List DockerOp
  | [] => (.ok [], [])
  | p :: rest =>
    let op := DockerOp.fileExists cid ("/test/" ++ p)
    match ops.fileExists cid ("/test/" ++ p) with
    | .error e => (.error e, [op])
    | .ok ex =>
      match filesExistErrors ops cid rest with
      | (.error e, t) => (.error e, op :: t)
      | (.ok msgs, t) =>
        (.ok ((if ex then [] else ["Expected file not found: " ++ p]) ++ msgs),
         op :: t)

/-- The `filesNotExist` loop: presence of `/test/<path>` contributes one
message; an uncaught `fileExists` throw aborts. -/
def filesNotExistErrors (ops : DockerOps) (cid : String) :
    List String → Except String (List String) × List DockerOp
  | [] => (.ok [], [])
  | p :: rest =>
    let op := DockerOp.fileExists cid ("/test/" ++ p)
    match ops.fileExists cid ("/test/" ++ p) with
    | .error e => (.error e, [op])
    | .ok ex =>
      match filesNotExistErrors ops cid rest with
      | (.error e, t) => (.error e, op :: t)
      | (.ok msgs, t) =>
        (.ok ((if ex then ["File should not exist: " ++ p] else []) ++ msgs),
         op :: t)

/-- The per-entry checks of the `fileContents` loop once the file's
content has been read: `equals` compares both sides trimmed; `contains`
and `notContains` run each matcher against the untrimmed content. -/
def fileContentErrors (fc : FileContentValidation) (content : String) : List String :=
  (match fc.equals with
   | none => []
   | some e =>
     if strTrim content ≠ strTrim e then
       ["File " ++ fc.path ++ " content doesn't match expected"]
     else []) ++
  (match fc.contains with
   | none => []
   | some ps => ps.filterMap fun p =>
     match p with
     | .str t =>
       if strIncludes content t then none
       else some ("File " ++ fc.path ++ " missing expected text: \"" ++ t ++ "\"")
     | .regex tst src =>
       if tst content then none
       else some ("File " ++ fc.path ++ " doesn't match pattern: " ++ src)) ++
  (match fc.notContains with
   | none => []
   | some ps => ps.filterMap fun p =>
     match p with
     | .str t =>
       if strIncludes content t then
         some ("File " ++ fc.path ++ " contains unexpected text: \"" ++ t ++ "\"")
       else none
     | .regex tst src =>
       if tst content then
         some ("File " ++ fc.path ++ " matches unexpected pattern: " ++ src)
       else none)

/-- The `fileContents` loop: each entry reads `/test/<path>`; a read
failure is caught (try/catch around the entry) and contributes a single
message; otherwise the entry's content checks run.  Never aborts. -/
def fileContentsErrors (ops : DockerOps) (cid : String) :
    List FileContentValidation → List String × List DockerOp
  | [] => ([], [])
  | fc :: rest =>
    let op := DockerOp.readFile cid ("/test/" ++ fc.path)
    let msgs :=
      match ops.readFile cid ("/test/" ++ fc.path) with
      | .error e => ["Failed to read file " ++ fc.path ++ ": " ++ e]
      | .ok content => fileContentErrors fc content
    let (ms, t) := fileContentsErrors ops cid rest
    (msgs ++ ms, op :: t)

/-- All messages `validateScenario` collects, in push order: exit code,
stdout matchers, stderr matchers, `filesExist`, `filesNotExist`,
`fileContents`.  `Except.error` is an uncaught `fileExists` throw. -/
def validationMessages (ops : DockerOps) (cid : String) (scenario : TestScenario)
    (result : ExecResult) : Except String (List String) × List DockerOp :=
  let v := scenario.validate
  let pureErrs := exitCodeErrors v result
    ++ streamErrors "Stdout" v.stdout result.stdout
    ++ streamErrors "Stderr" v.stderr result.stderr
  match filesExistErrors ops cid (v.filesExist.getD []) with
  | (.error e, t) => (.error e, t)
  | (.ok m1, t1) =>
    match filesNotExistErrors ops cid (v.filesNotExist.getD []) with
    | (.error e, t) => (.error e, t1 ++ t)
    | (.ok m2, t2) =>
      let (m3, t3) := fileContentsErrors ops cid (v.fileContents.getD [])
      (.ok (pureErrs ++ m1 ++ m2 ++ m3), t1 ++ t2 ++ t3)

/-- Function `validateScenario`: collect every message, then return
`{passed: false, error: errors.join('; ')}` when any were collected and
`{passed: true}` (no `error` field) otherwise. -/
def validateScenario (ops : DockerOps) (cid : String) (scenario : TestScenario)
    (result : ExecResult) : Except String ValidationResult × List DockerOp :=
  match validationMessages ops cid scenario result with
  | (.error e, t) => (.error e, t)
  | (.ok errs, t) =>
    if errs.isEmpty then (.ok { passed := true, error := none }, t)
    else (.ok { passed := false, error := some (joinSep "; " errs) }, t)

/-! ### `setupScenario` (the Environment Provisioner) -/

/-- The directory-creation loop: `createDirectory` on `/test/<dir>` for
every declared directory, in declaration order; the first throw aborts
(after its call was made). -/
def createDirsSteps (ops : DockerOps) (cid : String) :
    List String → Except String Unit × List DockerOp
  | [] => (.ok (), [])
  | d :: rest =>
    let op := DockerOp.createDirectory cid ("/test/" ++ d)
    match ops.createDirectory cid ("/test/" ++ d) with
    | .error e => (.error e, [op])
    | .ok _ =>
      let (r, t) := createDirsSteps ops cid rest
      (r, op :: t)

/-- One declared file: compute `/test/<path>`; when the parent directory
(text before the last slash) is not the working root `/test`, create it
first; then write the file. -/
def createFileSteps (ops : DockerOps) (cid : String) (f : TestFile) :
    Except String Unit × List DockerOp :=
  let filePath := "/test/" ++ f.path
  let parentDir := beforeLastSlash filePath
  let mkParent : Except String Unit × List DockerOp :=
    if parentDir ≠ "/test" then
      (ops.createDirectory cid parentDir, [DockerOp.createDirectory cid parentDir])
    else (.ok (), [])
  match mkParent with
  | (.error e, t) => (.error e, t)
  | (.ok _, t) =>
    (ops.createFile cid filePath f.content,
     t ++ [DockerOp.createFile cid filePath f.content])

/-- The file-creation loop, in declaration order. -/
def createFilesSteps (ops : DockerOps) (cid : String) :
    List TestFile → Except String Unit × List DockerOp
  | [] => (.ok (), [])
  | f :: rest =>
    match createFileSteps ops cid f with
    | (.error e, t) => (.error e, t)
    | (.ok _, t) =>
      let (r, t2) := createFilesSteps ops cid rest
      (r, t ++ t2)

/-- The argv of the `npm init -y` step. -/
def initNpmCmd : List String := ["sh", "-c", "cd /test && npm init -y"]

/-- The argv of the single batched dependency install:
`npm install <dep1 dep2 ...>` with the declared names joined by spaces. -/
def installCmd (deps : List String) : List String :=
  ["sh", "-c", "cd /test && npm install " ++ joinSep " " deps]

/-- Function `setupScenario`: directories, then files, then `npm init -y` when
`initNpm` is truthy, then one batched `npm install` when `dependencies`
is present and non-empty.  The first throw aborts the remaining steps. -/
def setupScenario (ops : DockerOps) (cid : String) (setup : Option TestSetup) :
    Except String Unit × List DockerOp :=
  match setup with
  | none => (.ok (), [])
  | some s =>
    match createDirsSteps ops cid (s.directories.getD []) with
    | (.error e, t) => (.error e, t)
    | (.ok _, t1) =>
      match createFilesSteps ops cid (s.files.getD []) with
      | (.error e, t) => (.error e, t1 ++ t)
      | (.ok _, t2) =>
        let initStep : Except String Unit × List DockerOp :=
          if s.initNpm = some true then
            match ops.executeCommand cid initNpmCmd with
            | .error e => (.error e, [DockerOp.executeCommand cid initNpmCmd])
            | .ok _ => (.ok (), [DockerOp.executeCommand cid initNpmCmd])
          else (.ok (), [])
        match initStep with
        | (.error e, t) => (.error e, t1 ++ t2 ++ t)
        | (.ok _, t3) =>
          let installStep : Except String Unit × List DockerOp :=
            match s.dependencies with
            | some deps =>
              if deps.isEmpty then (.ok (), [])
              else
                match ops.executeCommand cid (installCmd deps) with
                | .error e => (.error e, [DockerOp.executeCommand cid (installCmd deps)])
                | .ok _ => (.ok (), [DockerOp.executeCommand cid (installCmd deps)])
            | none => (.ok (), [])
          match installStep with
          | (.error e, t) => (.error e, t1 ++ t2 ++ t3 ++ t)
          | (.ok _, t4) => (.ok (), t1 ++ t2 ++ t3 ++ t4)

/-! ### `runScenario` (the Scenario Execution Engine) -/

/-- The result record `runScenario` synthesizes in its `catch` block:
`passed=false`, `exitCode=1`, empty stdout, the error's message in both
`stderr` and `error`. -/
def failResult (msg : String) : CommandTestResult :=
  { passed := false
    exitCode := 1
    stdout := ""
    stderr := msg
    error := some msg
    hasHelpOutput := false
    hasVersionOutput := false }

/-- The scenario's argv: `[scenario.command, ...(scenario.args || [])]`. -/
def fullCommand (scenario : TestScenario) : List String :=
  scenario.command :: (scenario.args.getD [])

/-- Function `runScenario`: setup (when `scenario.setup` is present), then the
command under test, then validation; any throw from any phase is caught
and turned into `failResult`.  Total by construction — the engine is the
error boundary — and paired with the full trace of container calls. -/
def runScenario (ops : DockerOps) (cid : String) (scenario : TestScenario) :
    CommandTestResult × List DockerOp :=
  let setupPhase : Except String Unit × List DockerOp :=
    match scenario.setup with
    | some _ => setupScenario ops cid scenario.setup
    | none => (.ok (), [])
  match setupPhase with
  | (.error e, t) => (failResult e, t)
  | (.ok _, t0) =>
    let cmd := fullCommand scenario
    let execOp := DockerOp.executeCommand cid cmd
    match ops.executeCommand cid cmd with
    | .error e => (failResult e, t0 ++ [execOp])
    | .ok result =>
      match validateScenario ops cid scenario result with
      | (.error e, vt) => (failResult e, t0 ++ [execOp] ++ vt)
      | (.ok vr, vt) =>
        ({ passed := vr.passed
           exitCode := result.exitCode
           stdout := result.stdout
           stderr := result.stderr
           error := vr.error
           hasHelpOutput := false
           hasVersionOutput := false },
         t0 ++ [execOp] ++ vt)

/-! ### General helper lemmas -/

theorem strApp_empty (s : String) : s ++ "" = s := by
  cases s with
  | mk data =>
    show String.mk (data ++ []) = String.mk data
    rw [List.append_nil]

theorem strApp_assoc (a b c : String) : a ++ b ++ c = a ++ (b ++ c) := by
  cases a with
  | mk da =>
    cases b with
    | mk db =>
      cases c with
      | mk dc =>
        show String.mk (da ++ db ++ dc) = String.mk (da ++ (db ++ dc))
        rw [List.append_assoc]

/-! ### Demultiplexing lemmas -/

theorem demuxStep_short (acc : String × String) (c : List Char)
    (h : ¬ 8 < c.length) : demuxStep acc c = acc := by
  cases c with
  | nil => rfl
  | cons b bs =>
    simp only [demuxStep]
    rw [if_neg h]

theorem demuxStep_unknown (acc : String × String) (c : List Char)
    (h1 : c.head?.map Char.toNat ≠ some 1)
    (h2 : c.head?.map Char.toNat ≠ some 2) : demuxStep acc c = acc := by
  cases c with
  | nil => rfl
  | cons b bs =>
    simp only [List.head?_cons, Option.map_some', Option.some.injEq,
      ne_eq] at h1 h2
    simp only [demuxStep]
    by_cases hlen : 8 < (b :: bs).length
    · rw [if_pos hlen, if_neg h1, if_neg h2]
    · rw [if_neg hlen]

theorem channelConcat_cons (tag : Nat) (c : List Char) (rest : List (List Char)) :
    channelConcat tag (c :: rest) =
      (if c.head?.map Char.toNat = some tag
       then String.mk (c.drop 8) else "") ++ channelConcat tag rest := rfl

theorem demux_foldl (chunks : List (List Char)) :
    ∀ acc : String × String,
      chunks.foldl demuxStep acc =
        (acc.1 ++ channelConcat 1 chunks, acc.2 ++ channelConcat 2 chunks) := by
  induction chunks with
  | nil =>
    intro acc
    simp only [List.foldl_nil, channelConcat, strApp_empty]
  | cons c rest ih =>
    intro acc
    rw [List.foldl_cons, ih, channelConcat_cons, channelConcat_cons]
    by_cases hlen : 8 < c.length
    · cases c with
      | nil => simp at hlen
      | cons b bs =>
        simp only [List.head?_cons, Option.map_some', Option.some.injEq]
        simp only [demuxStep]
        rw [if_pos hlen]
        by_cases h1 : b.toNat = 1
        · rw [if_pos h1, if_pos h1, if_neg (by omega : ¬ b.toNat = 2)]
          show ((acc.1 ++ String.mk ((b :: bs).drop 8)) ++ channelConcat 1 rest,
                acc.2 ++ channelConcat 2 rest) =
               (acc.1 ++ (String.mk ((b :: bs).drop 8) ++ channelConcat 1 rest),
                acc.2 ++ ("" ++ channelConcat 2 rest))
          rw [strApp_assoc]
          rfl
        · rw [if_neg h1, if_neg h1]
          by_cases h2 : b.toNat = 2
          · rw [if_pos h2, if_pos h2]
            show (acc.1 ++ ("" ++ channelConcat 1 rest),
                  (acc.2 ++ String.mk ((b :: bs).drop 8)) ++ channelConcat 2 rest) =
                 (acc.1 ++ ("" ++ channelConcat 1 rest),
                  acc.2 ++ (String.mk ((b :: bs).drop 8) ++ channelConcat 2 rest))
            rw [strApp_assoc]
          · rw [if_neg h2, if_neg h2]
            rfl
    · rw [demuxStep_short acc c hlen]
      have hdrop : c.drop 8 = [] := List.drop_eq_nil_of_le (by omega)
      rw [hdrop]
      have e1 : (if c.head?.map Char.toNat = some 1 then String.mk [] else "") = "" := by
        split <;> rfl
      have e2 : (if c.head?.map Char.toNat = some 2 then String.mk [] else "") = "" := by
        split <;> rfl
      rw [e1, e2]
      rfl

theorem demux_eq (chunks : List (List Char)) :
    demux chunks = (channelConcat 1 chunks, channelConcat 2 chunks) := by
  rw [demux, demux_foldl]
  rfl

/-! ### Claims C4, C9, C10 — `executeCommand`'s output handling -/

/-- Claim C4: for every sequence of framed chunks, `executeCommand`
reconstructs the two channels by appending, in arrival order, the
payload bytes (bytes 8 onward) of every chunk whose tag byte is 1 to
the stdout buffer and of every chunk whose tag byte is 2 to the stderr
buffer (chunks shorter than 8 bytes contribute no payload — their
bytes-8-onward slice is empty and the code skips them outright), and
both accumulated buffers are trimmed of leading and trailing whitespace
before being returned. -/
theorem executeCommand_reconstructs_channels (chunks : List (List Char))
    (ec : Option Int) :
    executeCommandResult chunks ec =
      { exitCode := ec.getD 0
        stdout := strTrim (channelConcat 1 chunks)
        stderr := strTrim (channelConcat 2 chunks) } := by
  unfold executeCommandResult
  rw [demux_eq]

/-- Claim C9: a chunk whose channel tag byte is neither 1 nor 2
contributes to neither buffer — deleting it from the received sequence
does not change the demultiplexed output. -/
theorem unknown_channel_tag_dropped (pre post : List (List Char)) (c : List Char)
    (h1 : c.head?.map Char.toNat ≠ some 1)
    (h2 : c.head?.map Char.toNat ≠ some 2) :
    demux (pre ++ c :: post) = demux (pre ++ post) := by
  unfold demux
  rw [List.foldl_append, List.foldl_append, List.foldl_cons,
    demuxStep_unknown _ c h1 h2]

/-- A concrete 11-byte chunk with channel tag 3. -/
def tagThreeChunk : List Char := Char.ofNat 3 :: ("0000000xy".data)

/-- Witness for C9: a concrete tag-3 chunk is discarded. -/
theorem unknown_channel_tag_dropped_witness :
    demux ([] ++ tagThreeChunk :: []) = demux ([] ++ []) :=
  unknown_channel_tag_dropped [] [] tagThreeChunk (by decide) (by decide)

/-- Claim C10: when the post-exec inspection reports no exit code
(`ExitCode` null or missing), `executeCommand` reports exit code 0. -/
theorem absent_exit_code_is_zero (chunks : List (List Char)) :
    (executeCommandResult chunks none).exitCode = 0 := rfl

/-! ### Concrete fixtures used by witnesses -/

/-- A validate block with every field absent. -/
def emptyValidation : TestValidation := ⟨none, none, none, none, none, none⟩

/-- A container oracle where every operation succeeds, no file exists
and every read throws `ENOENT`. -/
def stubOps : DockerOps where
  createDirectory _ _ := .ok ()
  createFile _ _ _ := .ok ()
  executeCommand _ _ := .ok ⟨0, "", ""⟩
  fileExists _ _ := .ok false
  readFile _ _ := .error "ENOENT"

/-- A scenario with no setup and no assertions. -/
def trivialScenario : TestScenario :=
  ⟨"trivial", none, "echo", none, emptyValidation⟩

/-- A scenario asserting default exit code, stdout text `hi`, and the
existence of `out.txt`. -/
def threeWayScenario : TestScenario :=
  ⟨"three", none, "mycmd", some ["--v"],
   ⟨none, some [.str "hi"], none, some ["out.txt"], none, none⟩⟩

/-! ### Claim C5 — default expected exit code -/

/-- Claim C5: when the validate block omits `exitCode`, the expected
exit code is 0: an actual exit code of 0 yields no exit-code failure
message, and an actual exit code of 1 yields exactly one message naming
expected 0 and the actual value. -/
theorem default_expected_exit_code (v : TestValidation) (r : ExecResult)
    (h : v.exitCode = none) :
    (r.exitCode = 0 → exitCodeErrors v r = []) ∧
    (r.exitCode = 1 → exitCodeErrors v r = ["Expected exit code 0, got 1"]) := by
  constructor
  · intro h0
    simp [exitCodeErrors, h, h0]
  · intro h1
    simp only [exitCodeErrors, h, h1, Option.getD_none]
    rw [if_pos (by decide : (1 : Int) ≠ 0)]
    decide

/-- Witness for C5 at actual exit codes 0 and 1. -/
theorem default_expected_exit_code_witness :
    exitCodeErrors emptyValidation ⟨0, "", ""⟩ = [] ∧
    exitCodeErrors emptyValidation ⟨1, "", ""⟩ = ["Expected exit code 0, got 1"] :=
  ⟨(default_expected_exit_code emptyValidation ⟨0, "", ""⟩ rfl).1 rfl,
   (default_expected_exit_code emptyValidation ⟨1, "", ""⟩ rfl).2 rfl⟩

/-! ### Claim C6 — file content matching -/

/-- Claim C6: the `equals` check compares the file content and the
expected string with surrounding whitespace trimmed from each, while
`contains`/`notContains` matchers run against the untrimmed content as
literal substring containment; in particular content `"hello\n"` passes
`equals "hello"`, passes `contains ["hell"]`, and fails
`contains ["World"]` with exactly one message. -/
theorem file_content_trim_semantics (p e s content : String) :
    (fileContentErrors ⟨p, none, none, some e⟩ content = [] ↔
      strTrim content = strTrim e) ∧
    (fileContentErrors ⟨p, some [.str s], none, none⟩ content = [] ↔
      strIncludes content s = true) ∧
    (fileContentErrors ⟨p, none, some [.str s], none⟩ content = [] ↔
      strIncludes content s = false) ∧
    fileContentErrors ⟨"f.txt", none, none, some "hello"⟩ "hello\n" = [] ∧
    fileContentErrors ⟨"f.txt", some [.str "hell"], none, none⟩ "hello\n" = [] ∧
    (fileContentErrors ⟨"f.txt", some [.str "World"], none, none⟩ "hello\n").length = 1 := by
  refine ⟨?_, ?_, ?_, ?_, ?_, ?_⟩
  · by_cases h : strTrim content = strTrim e <;> simp [fileContentErrors, h]
  · by_cases h : strIncludes content s <;> simp [fileContentErrors, h]
  · by_cases h : strIncludes content s <;> simp [fileContentErrors, h]
  · decide
  · decide
  · decide

/-- Reduction of `validateScenario` once its collected messages are
known. -/
theorem validateScenario_of_msgs (ops : DockerOps) (cid : String)
    (sc : TestScenario) (r : ExecResult) (errs : List String)
    (tr : List DockerOp)
    (h : validationMessages ops cid sc r = (.ok errs, tr)) :
    validateScenario ops cid sc r =
      (if errs.isEmpty then (.ok { passed := true, error := none }, tr)
       else (.ok { passed := false, error := some (joinSep "; " errs) }, tr)) := by
  unfold validateScenario
  rw [h]

/-! ### Claim C8 — verdict aggregation -/

/-- Claim C8: the validator's verdict: `passed` is true exactly when
zero failure messages were collected; with at least one message,
`error` equals the messages joined with `"; "`; with none, `error` is
absent (`none`), not an empty string. -/
theorem verdict_from_messages (ops : DockerOps) (cid : String)
    (sc : TestScenario) (r : ExecResult) (errs : List String)
    (tr : List DockerOp)
    (h : validationMessages ops cid sc r = (.ok errs, tr)) :
    ∃ vr : ValidationResult, (validateScenario ops cid sc r).1 = .ok vr ∧
      (vr.passed = true ↔ errs = []) ∧
      (errs = [] → vr.error = none) ∧
      (errs ≠ [] → vr.error = some (joinSep "; " errs)) := by
  unfold validateScenario
  rw [h]
  cases errs with
  | nil =>
    exact ⟨⟨true, none⟩, rfl, by simp, fun _ => rfl, by simp⟩
  | cons a as =>
    refine ⟨⟨false, some (joinSep "; " (a :: as))⟩, rfl, by simp, by simp,
      fun _ => rfl⟩

/-- Witness for C8 on a scenario with no assertions (zero messages)
whose verdict is `passed` with `error` absent. -/
theorem verdict_from_messages_witness :
    ∃ vr : ValidationResult,
      (validateScenario stubOps "c" trivialScenario ⟨0, "", ""⟩).1 = .ok vr ∧
      (vr.passed = true ↔ ([] : List String) = []) ∧
      (([] : List String) = [] → vr.error = none) ∧
      (([] : List String) ≠ [] → vr.error = some (joinSep "; " [])) :=
  verdict_from_messages stubOps "c" trivialScenario ⟨0, "", ""⟩ [] [] rfl

/-! ### Claim C1 — the validator collects all failures -/

/-- Claim C1: on a run exhibiting an exit-code mismatch, exactly one
unmatched stdout matcher and exactly one missing `filesExist` path
simultaneously (and no other violation), `validateScenario` evaluates
every assertion category unconditionally and collects exactly 3 failure
messages — one per violation — rather than stopping at the first. -/
theorem validator_collects_all (ops : DockerOps) (cid : String)
    (sc : TestScenario) (r : ExecResult) (m1 : List String)
    (t1 t2 : List DockerOp)
    (hexit : r.exitCode ≠ sc.validate.exitCode.getD 0)
    (hstd : (streamErrors "Stdout" sc.validate.stdout r.stdout).length = 1)
    (hse : streamErrors "Stderr" sc.validate.stderr r.stderr = [])
    (hfe : filesExistErrors ops cid (sc.validate.filesExist.getD []) = (.ok m1, t1))
    (hm1 : m1.length = 1)
    (hfn : filesNotExistErrors ops cid (sc.validate.filesNotExist.getD []) =
      (.ok [], t2))
    (hfc : (fileContentsErrors ops cid (sc.validate.fileContents.getD [])).1 = []) :
    ∃ errs tr, validationMessages ops cid sc r = (.ok errs, tr) ∧
      errs.length = 3 ∧
      (validateScenario ops cid sc r).1 =
        .ok { passed := false, error := some (joinSep "; " errs) } := by
  rcases hfc3 : fileContentsErrors ops cid (sc.validate.fileContents.getD [])
    with ⟨m3, t3⟩
  rw [hfc3] at hfc
  replace hfc : m3 = [] := hfc
  subst hfc
  have hx : (exitCodeErrors sc.validate r).length = 1 := by
    simp only [exitCodeErrors]
    rw [if_pos hexit]
    rfl
  have hmsg : validationMessages ops cid sc r =
      (.ok (exitCodeErrors sc.validate r
            ++ streamErrors "Stdout" sc.validate.stdout r.stdout
            ++ streamErrors "Stderr" sc.validate.stderr r.stderr
            ++ m1 ++ [] ++ []),
       t1 ++ t2 ++ t3) := by
    simp only [validationMessages]
    rw [hfe, hfn, hfc3]
  have hlen : (exitCodeErrors sc.validate r
      ++ streamErrors "Stdout" sc.validate.stdout r.stdout
      ++ streamErrors "Stderr" sc.validate.stderr r.stderr
      ++ m1 ++ [] ++ []).length = 3 := by
    simp [List.length_append, hx, hstd, hse, hm1]
  refine ⟨_, _, hmsg, hlen, ?_⟩
  have hne : ¬ ((exitCodeErrors sc.validate r
      ++ streamErrors "Stdout" sc.validate.stdout r.stdout
      ++ streamErrors "Stderr" sc.validate.stderr r.stderr
      ++ m1 ++ [] ++ []).isEmpty = true) := by
    intro hh
    rw [List.isEmpty_iff] at hh
    rw [hh] at hlen
    simp at hlen
  rw [validateScenario_of_msgs ops cid sc r _ _ hmsg, if_neg hne]

/-- Witness for C1: exit code 1 against expected 0, stdout missing
`hi`, `out.txt` absent — three messages, one per violation. -/
theorem validator_collects_all_witness :
    ∃ errs tr,
      validationMessages stubOps "c" threeWayScenario ⟨1, "", ""⟩ = (.ok errs, tr) ∧
      errs.length = 3 ∧
      (validateScenario stubOps "c" threeWayScenario ⟨1, "", ""⟩).1 =
        .ok { passed := false, error := some (joinSep "; " errs) } :=
  validator_collects_all stubOps "c" threeWayScenario ⟨1, "", ""⟩
    ["Expected file not found: out.txt"] [DockerOp.fileExists "c" "/test/out.txt"] []
    (by decide) (by decide) rfl rfl rfl rfl rfl

/-! ### Spec-side description of the provisioning call sequence -/

/-- Step 1: one `createDirectory` per declared directory, in order. -/
def dirTrace (cid : String) (dirs : List String) : List DockerOp :=
  dirs.map fun d => DockerOp.createDirectory cid ("/test/" ++ d)

/-- Step 2, one file: create the parent directory first when it is not
the working root `/test`, then write the file. -/
def fileTrace (cid : String) (f : TestFile) : List DockerOp :=
  (if beforeLastSlash ("/test/" ++ f.path) ≠ "/test"
   then [DockerOp.createDirectory cid (beforeLastSlash ("/test/" ++ f.path))]
   else []) ++
  [DockerOp.createFile cid ("/test/" ++ f.path) f.content]

/-- Step 2: the file steps for every declared file, in order. -/
def filesTrace (cid : String) (files : List TestFile) : List DockerOp :=
  (files.map (fileTrace cid)).flatten

/-- Step 3: `npm init -y`, only when `initNpm` is true. -/
def initTrace (cid : String) (s : TestSetup) : List DockerOp :=
  if s.initNpm = some true then [DockerOp.executeCommand cid initNpmCmd] else []

/-- Step 4: one single batched `npm install` of all declared
dependencies, only when the list is present and non-empty. -/
def installTrace (cid : String) (s : TestSetup) : List DockerOp :=
  match s.dependencies with
  | some deps =>
    if deps.isEmpty then [] else [DockerOp.executeCommand cid (installCmd deps)]
  | none => []

/-- The full provisioning sequence in the fixed order the spec states:
directories, files, project initialization, dependency install. -/
def provisionTrace (cid : String) (s : TestSetup) : List DockerOp :=
  dirTrace cid (s.directories.getD []) ++ filesTrace cid (s.files.getD [])
    ++ initTrace cid s ++ installTrace cid s

/-! ### Provisioning lemmas -/

theorem createDirsSteps_ok (ops : DockerOps) (cid : String)
    (hd : ∀ c p, ops.createDirectory c p = .ok ()) (dirs : List String) :
    createDirsSteps ops cid dirs = (.ok (), dirTrace cid dirs) := by
  induction dirs with
  | nil => rfl
  | cons d rest ih =>
    simp only [createDirsSteps]
    rw [hd, ih]
    rfl

theorem createFileSteps_ok (ops : DockerOps) (cid : String)
    (hd : ∀ c p, ops.createDirectory c p = .ok ())
    (hf : ∀ c p ct, ops.createFile c p ct = .ok ()) (f : TestFile) :
    createFileSteps ops cid f = (.ok (), fileTrace cid f) := by
  simp only [createFileSteps, fileTrace]
  by_cases hp : beforeLastSlash ("/test/" ++ f.path) ≠ "/test"
  · rw [if_pos hp, if_pos hp, hd, hf]
  · rw [if_neg hp, if_neg hp, hf]

theorem createFilesSteps_ok (ops : DockerOps) (cid : String)
    (hd : ∀ c p, ops.createDirectory c p = .ok ())
    (hf : ∀ c p ct, ops.createFile c p ct = .ok ()) (files : List TestFile) :
    createFilesSteps ops cid files = (.ok (), filesTrace cid files) := by
  induction files with
  | nil => rfl
  | cons f rest ih =>
    simp only [createFilesSteps]
    rw [createFileSteps_ok ops cid hd hf, ih]
    rfl

/-! ### Claim C7 — provisioning order -/

/-- Claim C7: on a container where provisioning operations succeed,
`setupScenario` performs, in order: every declared directory in
declaration order; every declared file (parent directory created first
when it is not the working root, then the write); `npm init -y` when
requested; then one single batched `npm install` of all declared
dependencies — each step only when its field is present. -/
theorem provisioning_order (ops : DockerOps) (cid : String) (s : TestSetup)
    (hd : ∀ c p, ops.createDirectory c p = .ok ())
    (hf : ∀ c p ct, ops.createFile c p ct = .ok ())
    (he : ∀ c cmd, ∃ res, ops.executeCommand c cmd = .ok res) :
    setupScenario ops cid (some s) = (.ok (), provisionTrace cid s) := by
  simp only [setupScenario, provisionTrace]
  rw [createDirsSteps_ok ops cid hd, createFilesSteps_ok ops cid hd hf]
  obtain ⟨ri, hi⟩ := he cid initNpmCmd
  by_cases hinit : s.initNpm = some true
  · rw [if_pos hinit, hi]
    cases hdep : s.dependencies with
    | none => simp [installTrace, initTrace, hdep, hinit]
    | some deps =>
      by_cases hde : deps.isEmpty
      · simp [installTrace, initTrace, hdep, hde, hinit]
      · obtain ⟨rd, hrd⟩ := he cid (installCmd deps)
        simp [installTrace, initTrace, hdep, hde, hinit, hrd]
  · rw [if_neg hinit]
    cases hdep : s.dependencies with
    | none => simp [installTrace, initTrace, hdep, hinit]
    | some deps =>
      by_cases hde : deps.isEmpty
      · simp [installTrace, initTrace, hdep, hde, hinit]
      · obtain ⟨rd, hrd⟩ := he cid (installCmd deps)
        simp [installTrace, initTrace, hdep, hde, hinit, hrd]

/-- A setup block with a nested file, a directory, two dependencies and
project initialization. -/
def fullSetup : TestSetup :=
  ⟨some [⟨"dir/a.txt", "x"⟩, ⟨"b.txt", "y"⟩], some ["dir"],
   some ["lodash", "react"], some true⟩

/-- Witness for C7 on `fullSetup`. -/
theorem provisioning_order_witness :
    setupScenario stubOps "c" (some fullSetup) =
      (.ok (), provisionTrace "c" fullSetup) :=
  provisioning_order stubOps "c" fullSetup (fun _ _ => rfl) (fun _ _ _ => rfl)
    (fun _ _ => ⟨⟨0, "", ""⟩, rfl⟩)

/-! ### Engine reduction lemmas -/

/-- Reduction of `runScenario` with the setup phase folded into `setupScenario`: the
engine's `if (scenario.setup)` guard coincides with `setupScenario`'s
own early return on an absent setup block. -/
theorem runScenario_unfold (ops : DockerOps) (cid : String) (sc : TestScenario) :
    runScenario ops cid sc =
      (match setupScenario ops cid sc.setup with
       | (.error e, t) => (failResult e, t)
       | (.ok _, t0) =>
         match ops.executeCommand cid (fullCommand sc) with
         | .error e =>
           (failResult e, t0 ++ [DockerOp.executeCommand cid (fullCommand sc)])
         | .ok result =>
           match validateScenario ops cid sc result with
           | (.error e, vt) =>
             (failResult e,
              t0 ++ [DockerOp.executeCommand cid (fullCommand sc)] ++ vt)
           | (.ok vr, vt) =>
             ({ passed := vr.passed
                exitCode := result.exitCode
                stdout := result.stdout
                stderr := result.stderr
                error := vr.error
                hasHelpOutput := false
                hasVersionOutput := false },
              t0 ++ [DockerOp.executeCommand cid (fullCommand sc)] ++ vt)) := by
  cases hset : sc.setup with
  | none =>
    unfold runScenario
    rw [hset]
    rfl
  | some s =>
    unfold runScenario
    rw [hset]

theorem runScenario_of_setup_error (ops : DockerOps) (cid : String)
    (sc : TestScenario) (e : String) (tr : List DockerOp)
    (h : setupScenario ops cid sc.setup = (.error e, tr)) :
    runScenario ops cid sc = (failResult e, tr) := by
  rw [runScenario_unfold, h]

theorem runScenario_of_exec_error (ops : DockerOps) (cid : String)
    (sc : TestScenario) (e : String) (t0 : List DockerOp)
    (hs : setupScenario ops cid sc.setup = (.ok (), t0))
    (he : ops.executeCommand cid (fullCommand sc) = .error e) :
    runScenario ops cid sc =
      (failResult e, t0 ++ [DockerOp.executeCommand cid (fullCommand sc)]) := by
  rw [runScenario_unfold, hs, he]

theorem runScenario_of_exec_ok (ops : DockerOps) (cid : String)
    (sc : TestScenario) (t0 : List DockerOp) (r : ExecResult)
    (hs : setupScenario ops cid sc.setup = (.ok (), t0))
    (he : ops.executeCommand cid (fullCommand sc) = .ok r) :
    runScenario ops cid sc =
      (match validateScenario ops cid sc r with
       | (.error e, vt) =>
         (failResult e,
          t0 ++ [DockerOp.executeCommand cid (fullCommand sc)] ++ vt)
       | (.ok vr, vt) =>
         (⟨vr.passed, r.exitCode, r.stdout, r.stderr, vr.error, false, false⟩,
          t0 ++ [DockerOp.executeCommand cid (fullCommand sc)] ++ vt)) := by
  rw [runScenario_unfold, hs, he]

theorem runScenario_of_validate_error (ops : DockerOps) (cid : String)
    (sc : TestScenario) (e : String) (t0 vt : List DockerOp) (r : ExecResult)
    (hs : setupScenario ops cid sc.setup = (.ok (), t0))
    (he : ops.executeCommand cid (fullCommand sc) = .ok r)
    (hv : validateScenario ops cid sc r = (.error e, vt)) :
    runScenario ops cid sc =
      (failResult e,
       t0 ++ [DockerOp.executeCommand cid (fullCommand sc)] ++ vt) := by
  rw [runScenario_of_exec_ok ops cid sc t0 r hs he, hv]

/-! ### Claim C2 — the engine is the error boundary -/

/-- Claim C2: `runScenario` is a total function — it never propagates
an exception — and whenever the provisioning step, the invocation step
or the validation step throws, the returned record has `passed=false`,
`exitCode=1`, empty stdout, and the exception's message in both
`stderr` and `error`. -/
theorem engine_error_boundary (ops : DockerOps) (cid : String)
    (sc : TestScenario) (e : String) (t0 vt : List DockerOp) (r : ExecResult) :
    (setupScenario ops cid sc.setup = (.error e, t0) →
      (runScenario ops cid sc).1 = ⟨false, 1, "", e, some e, false, false⟩) ∧
    (setupScenario ops cid sc.setup = (.ok (), t0) →
      ops.executeCommand cid (fullCommand sc) = .error e →
      (runScenario ops cid sc).1 = ⟨false, 1, "", e, some e, false, false⟩) ∧
    (setupScenario ops cid sc.setup = (.ok (), t0) →
      ops.executeCommand cid (fullCommand sc) = .ok r →
      validateScenario ops cid sc r = (.error e, vt) →
      (runScenario ops cid sc).1 = ⟨false, 1, "", e, some e, false, false⟩) := by
  refine ⟨fun h => ?_, fun hs he => ?_, fun hs he hv => ?_⟩
  · rw [runScenario_of_setup_error ops cid sc e t0 h]
    rfl
  · rw [runScenario_of_exec_error ops cid sc e t0 hs he]
    rfl
  · rw [runScenario_of_validate_error ops cid sc e t0 vt r hs he hv]
    rfl

/-- Oracle whose directory creation throws `boom`. -/
def failSetupOps : DockerOps :=
  { stubOps with createDirectory := fun _ _ => .error "boom" }

/-- Oracle whose command execution throws `bang`. -/
def failExecOps : DockerOps :=
  { stubOps with executeCommand := fun _ _ => .error "bang" }

/-- Oracle whose existence check throws `crash`. -/
def failFsOps : DockerOps :=
  { stubOps with fileExists := fun _ _ => .error "crash" }

/-- A scenario with a setup block declaring one directory and one
dependency. -/
def setupFixture : TestScenario :=
  ⟨"withSetup", some ⟨none, some ["d"], some ["lodash"], none⟩,
   "mycmd", none, emptyValidation⟩

/-- Witness for C2: a throw in each of the three phases, each caught
and translated into the synthesized failed result. -/
theorem engine_error_boundary_witness :
    (runScenario failSetupOps "c" setupFixture).1 =
      ⟨false, 1, "", "boom", some "boom", false, false⟩ ∧
    (runScenario failExecOps "c" trivialScenario).1 =
      ⟨false, 1, "", "bang", some "bang", false, false⟩ ∧
    (runScenario failFsOps "c" threeWayScenario).1 =
      ⟨false, 1, "", "crash", some "crash", false, false⟩ :=
  ⟨(engine_error_boundary failSetupOps "c" setupFixture "boom"
      [DockerOp.createDirectory "c" "/test/d"] [] ⟨0, "", ""⟩).1 rfl,
   (engine_error_boundary failExecOps "c" trivialScenario "bang"
      [] [] ⟨0, "", ""⟩).2.1 rfl rfl,
   (engine_error_boundary failFsOps "c" threeWayScenario "crash"
      [] [DockerOp.fileExists "c" "/test/out.txt"] ⟨0, "", ""⟩).2.2 rfl rfl rfl⟩

/-! ### Claim C3 — setup failure aborts the scenario -/

/-- Claim C3: on a scenario with a setup block, when provisioning
throws, the run's entire call trace is the provisioning trace — the
command under test is never invoked, the executor receives no
invocation-phase call — and the returned result has `exitCode=1`, empty
stdout, the failure's message in `stderr` and `error`, and
`passed=false`. -/
theorem setup_failure_short_circuits (ops : DockerOps) (cid : String)
    (sc : TestScenario) (s : TestSetup) (e : String) (tr : List DockerOp)
    (_hset : sc.setup = some s)
    (hfail : setupScenario ops cid sc.setup = (.error e, tr)) :
    runScenario ops cid sc =
      (⟨false, 1, "", e, some e, false, false⟩, tr) := by
  rw [runScenario_of_setup_error ops cid sc e tr hfail]
  rfl

/-- Witness for C3: the dependency declaration is never reached because
directory creation failed; the trace stops at the failing provisioning
call and contains no invocation of `mycmd`. -/
theorem setup_failure_short_circuits_witness :
    runScenario failSetupOps "c" setupFixture =
      (⟨false, 1, "", "boom", some "boom", false, false⟩,
       [DockerOp.createDirectory "c" "/test/d"]) :=
  setup_failure_short_circuits failSetupOps "c" setupFixture
    ⟨none, some ["d"], some ["lodash"], none⟩ "boom"
    [DockerOp.createDirectory "c" "/test/d"] rfl rfl

end NPT
